import Mathlib

/-!
# Quartz: command recording of the Vulkan renderer

A shallow embedding of `src/raytrace/renderers/vulkan/commandbuffer.h`.

The C++ class `CommandBuffer` wraps a `VkCommandBuffer` handle; each inline
member function issues one `vkCmd*` entry point on that handle.  The embedding
keeps, next to the handle, the ordered sequence of `vkCmd*` calls issued on it,
so that a member function becomes a function from command buffers to command
buffers (or to a fatal error where the source asserts).

Machine integers are natural numbers or integers with explicit wrap-around:
`uint32_t` arithmetic is reduced modulo `2 ^ 32`, `VkDeviceSize` arithmetic
modulo `2 ^ 64`.  Handles and flag words are natural numbers, the null handle
being `0`.
-/

namespace Qt3DRaytrace
namespace Vulkan

/-! ## Machine arithmetic -/

/-- Result of an arithmetic operation carried out in `uint32_t`. -/
def wrap32 (n : Nat) : Nat := n % 2 ^ 32

/-- Result of an arithmetic operation carried out in `VkDeviceSize` (`uint64_t`). -/
def wrap64 (n : Nat) : Nat := n % 2 ^ 64

/-- Conversion `uint32_t(i)` of a C++ `int`. -/
def toUInt32 (i : Int) : Nat := (i % 2 ^ 32).toNat

/-- The null handle `VK_NULL_HANDLE`. -/
def VK_NULL_HANDLE : Nat := 0

/-! ## Fatal errors -/

/-- The one way a recording call can fail: a violated assertion. -/
inductive Fatal
  | assertion
  deriving DecidableEq, Repr

/-- Modelled from the spec: the macro `Q_ASSERT` comes from Qt and its definition
is not in the repository; the spec calls a violated assertion fatal and never
recovered, so a false condition ends the call with `Fatal.assertion` and a true
one lets it go on. -/
def Q_ASSERT (cond : Prop) [Decidable cond] : Except Fatal Unit :=
  if cond then Except.ok () else Except.error Fatal.assertion

/-- Modelled from the spec: `QVector<T>::operator[](int)`, which comes from Qt
and is not in the repository; an index outside `[0, size)` is a violated
assertion, an index inside yields the element at that position. -/
def QVector_at {α : Type} (v : List α) (i : Int) : Except Fatal α :=
  if 0 ≤ i then
    match v.get? i.toNat with
    | some x => Except.ok x
    | none => Except.error Fatal.assertion
  else Except.error Fatal.assertion

/-! ## Descriptors -/

/-- The pipeline bind points the spec names (`VkPipelineBindPoint`). -/
inductive VkPipelineBindPoint
  | GRAPHICS
  | COMPUTE
  | RAY_TRACING_NV
  deriving DecidableEq, Repr

/-- One push-constant range, `VkPushConstantRange`. -/
structure VkPushConstantRange where
  stageFlags : Nat
  offset : Nat
  size : Nat
  deriving DecidableEq, Repr

/-- Modelled from the spec: `Pipeline` is declared in `pipeline/pipeline.h`, a
header this development does not cover.  Its fields are those the command
buffer reads: the pipeline handle, the bind point, the layout and the declared
push-constant ranges. -/
structure Pipeline where
  handle : Nat
  bindPoint : VkPipelineBindPoint
  pipelineLayout : Nat
  pushConstantRanges : List VkPushConstantRange
  deriving DecidableEq, Repr

/-- Modelled from the spec: `RayTracingPipeline` is declared in
`pipeline/raytracingpipeline.h`, a header this development does not cover.  It
extends `Pipeline` with the shader-binding-table buffer, the per-record stride
and the offset of the first hit-group record. -/
structure RayTracingPipeline extends Pipeline where
  shaderBindingTable : Nat
  shaderBindingTableStride : Nat
  shaderBindingTableHitGroupOffset : Nat
  deriving DecidableEq, Repr

/-- Modelled from the spec: a buffer transition of `resourcebarrier.h` (resource
handle, old state, new state). -/
structure BufferTransition where
  buffer : Nat
  oldState : Nat
  newState : Nat
  deriving DecidableEq, Repr

/-- Modelled from the spec: an image transition of `resourcebarrier.h` (resource
handle, old state, new state, subresource range). -/
structure ImageTransition where
  image : Nat
  oldState : Nat
  newState : Nat
  range : List Nat
  deriving DecidableEq, Repr

/-- The enumeration `ImageState`, by the value of the enumerator. -/
abbrev ImageState := Nat

/-- A rectangle as read through `QRect::x()`, `y()`, `width()` and `height()`. -/
structure QRect where
  x : Int
  y : Int
  width : Int
  height : Int
  deriving DecidableEq, Repr

/-- A `float`, kept symbolic: either a value the caller passed (named by its bit
pattern) or the conversion of an integer, which is not evaluated. -/
inductive FloatValue
  | given (bits : Nat)
  | ofInt32 (i : Int)
  | ofUInt32 (n : Nat)
  deriving DecidableEq, Repr

/-- The structure `VkMemoryBarrier`. -/
structure VkMemoryBarrier where
  srcAccessMask : Nat
  dstAccessMask : Nat
  deriving DecidableEq, Repr

/-- The structure `VkBufferCopy`. -/
structure VkBufferCopy where
  srcOffset : Nat
  dstOffset : Nat
  size : Nat
  deriving DecidableEq, Repr

/-- The structure `VkViewport`. -/
structure VkViewport where
  x : FloatValue
  y : FloatValue
  width : FloatValue
  height : FloatValue
  minDepth : FloatValue
  maxDepth : FloatValue
  deriving DecidableEq, Repr

/-- The structure `VkRect2D`. -/
structure VkRect2D where
  offsetX : Int
  offsetY : Int
  extentWidth : Nat
  extentHeight : Nat
  deriving DecidableEq, Repr

/-! ## Recorded commands -/

/-- One call of a `vkCmd*` entry point with its arguments, in the order of the
C signature.  An array argument (count and pointer) is a list, except where
the source passes the count it computed itself, which is then kept as well.
Structures passed by address and left untouched by the command buffer
(`VkAccelerationStructureInfoNV`, `RenderPassBeginInfo`, `VkImageBlit`,
`VkBufferImageCopy`, `ImageSubresourceRange`) are named by a number. -/
inductive Command
  | vkCmdPipelineBarrier (commandBuffer srcStageMask dstStageMask dependencyFlags : Nat)
      (memoryBarriers : List VkMemoryBarrier)
      (bufferMemoryBarriers imageMemoryBarriers : List Nat)
  | vkCmdBeginRenderPass (commandBuffer beginInfo contents : Nat)
  | vkCmdEndRenderPass (commandBuffer : Nat)
  | vkCmdClearColorImage (commandBuffer image imageLayout : Nat) (color : List Nat)
      (ranges : List Nat)
  | vkCmdBindPipeline (commandBuffer : Nat) (bindPoint : VkPipelineBindPoint) (pipeline : Nat)
  | vkCmdBindDescriptorSets (commandBuffer : Nat) (bindPoint : VkPipelineBindPoint)
      (layout firstSet descriptorSetCount : Nat) (descriptorSets : List Nat)
      (dynamicOffsets : List Nat)
  | vkCmdBuildAccelerationStructureNV (commandBuffer info instanceData instanceOffset : Nat)
      (update : Bool) (dst src scratch scratchOffset : Nat)
  | vkCmdBlitImage (commandBuffer srcImage srcImageLayout dstImage dstImageLayout : Nat)
      (regions : List Nat) (filter : Nat)
  | vkCmdCopyBuffer (commandBuffer srcBuffer dstBuffer : Nat) (regions : List VkBufferCopy)
  | vkCmdCopyImageToBuffer (commandBuffer srcImage srcImageLayout dstBuffer : Nat)
      (regions : List Nat)
  | vkCmdDispatch (commandBuffer groupCountX groupCountY groupCountZ : Nat)
  | vkCmdDraw (commandBuffer vertexCount instanceCount firstVertex firstInstance : Nat)
  | vkCmdExecuteCommands (commandBuffer commandBufferCount : Nat) (commandBuffers : List Nat)
  | vkCmdPushConstants (commandBuffer layout stageFlags offset size values : Nat)
  | vkCmdResetQueryPool (commandBuffer queryPool firstQuery queryCount : Nat)
  | vkCmdTraceRaysNV (commandBuffer : Nat)
      (raygenShaderBindingTableBuffer raygenShaderBindingOffset : Nat)
      (missShaderBindingTableBuffer missShaderBindingOffset missShaderBindingStride : Nat)
      (hitShaderBindingTableBuffer hitShaderBindingOffset hitShaderBindingStride : Nat)
      (callableShaderBindingTableBuffer callableShaderBindingOffset
        callableShaderBindingStride : Nat)
      (width height depth : Nat)
  | vkCmdSetViewport (commandBuffer firstViewport : Nat) (viewports : List VkViewport)
  | vkCmdSetScissor (commandBuffer firstScissor : Nat) (scissors : List VkRect2D)
  | vkCmdSetEvent (commandBuffer event stageMask : Nat)
  | vkCmdWriteTimestamp (commandBuffer pipelineStage queryPool query : Nat)
  deriving DecidableEq, Repr

/-- Modelled from the spec: the recording states of a command buffer (section 3 of
the spec).  The class in `commandbuffer.h` declares no such member; the state
belongs to the driver object behind the handle. -/
inductive RecordingState
  | Initial
  | Recording
  | Executable
  | Pending
  | Invalid
  deriving DecidableEq, Repr

/-- The command buffer: the wrapped handle (the only data member of the C++
class), the recording state of the object behind it, and the ordered sequence
of commands issued on the handle so far. -/
structure CommandBuffer where
  handle : Nat
  state : RecordingState
  recorded : List Command
  deriving DecidableEq, Repr

/-- Effect of one `vkCmd*` call made by a member function: the call is appended
to the sequence of the command buffer. -/
def CommandBuffer.record (cb : CommandBuffer) (c : Command) : CommandBuffer :=
  { cb with recorded := cb.recorded ++ [c] }

/-! ## Member functions of `CommandBuffer` -/

section Members

open Command

/-- Type of the counted-array overload of `resourceBarrier` (line 29 of the
header), whose body is outside the header: it receives the command buffer, two
counts and two array pointers (`none` for `nullptr`). -/
abbrev ResourceBarrierPrimitive :=
  CommandBuffer → Int → Option (List BufferTransition) → Int →
    Option (List ImageTransition) → Except Fatal CommandBuffer

/-- The overload `resourceBarrier(const BufferTransition &)`. -/
def resourceBarrier_buffer (resourceBarrier : ResourceBarrierPrimitive)
    (cb : CommandBuffer) (bufferTransition : BufferTransition) : Except Fatal CommandBuffer :=
  resourceBarrier cb 1 (some [bufferTransition]) 0 none

/-- The overload `resourceBarrier(const ImageTransition &)`. -/
def resourceBarrier_image (resourceBarrier : ResourceBarrierPrimitive)
    (cb : CommandBuffer) (imageTransition : ImageTransition) : Except Fatal CommandBuffer :=
  resourceBarrier cb 0 none 1 (some [imageTransition])

/-- The member `pipelineBarrier`. -/
def pipelineBarrier (cb : CommandBuffer)
    (srcStageMask srcAccessMask dstStageMask dstAccessMask : Nat) : Except Fatal CommandBuffer :=
  let memoryBarrier : VkMemoryBarrier :=
    { srcAccessMask := srcAccessMask, dstAccessMask := dstAccessMask }
  pure (cb.record
    (vkCmdPipelineBarrier cb.handle srcStageMask dstStageMask 0 [memoryBarrier] [] []))

/-- The member `beginRenderPass`. -/
def beginRenderPass (cb : CommandBuffer) (beginInfo contents : Nat) :
    Except Fatal CommandBuffer :=
  pure (cb.record (vkCmdBeginRenderPass cb.handle beginInfo contents))

/-- The member `endRenderPass`. -/
def endRenderPass (cb : CommandBuffer) : Except Fatal CommandBuffer :=
  pure (cb.record (vkCmdEndRenderPass cb.handle))

/-- The member `clearColorImage`; the clear value is the zero-initialised
`VkClearColorValue` (four zero words).  The lookup
`ResourceBarrier::getImageLayoutFromState` is declared outside the header and
taken as a parameter. -/
def clearColorImage (getImageLayoutFromState : ImageState → Nat) (cb : CommandBuffer)
    (image : Nat) (imageState : ImageState) (range : Nat) : Except Fatal CommandBuffer :=
  let clearValue : List Nat := [0, 0, 0, 0]
  pure (cb.record
    (vkCmdClearColorImage cb.handle image (getImageLayoutFromState imageState) clearValue
      [range]))

/-- The member `bindPipeline`. -/
def bindPipeline (cb : CommandBuffer) (pipeline : Pipeline) : Except Fatal CommandBuffer :=
  pure (cb.record (vkCmdBindPipeline cb.handle pipeline.bindPoint pipeline.handle))

/-- The member `bindDescriptorSets`. -/
def bindDescriptorSets (cb : CommandBuffer) (pipeline : Pipeline) (firstSet : Nat)
    (descriptorSets : List Nat) : Except Fatal CommandBuffer :=
  pure (cb.record
    (vkCmdBindDescriptorSets cb.handle pipeline.bindPoint pipeline.pipelineLayout firstSet
      (wrap32 descriptorSets.length) descriptorSets []))

/-- The member `buildTopLevelAccelerationStructure`. -/
def buildTopLevelAccelerationStructure (cb : CommandBuffer)
    (info dst src instanceData scratch : Nat) : Except Fatal CommandBuffer :=
  let update : Bool := if src ≠ VK_NULL_HANDLE then true else false
  pure (cb.record
    (vkCmdBuildAccelerationStructureNV cb.handle info instanceData 0 update dst src scratch 0))

/-- The member `buildBottomLevelAccelerationStructure`. -/
def buildBottomLevelAccelerationStructure (cb : CommandBuffer)
    (info dst src scratch : Nat) : Except Fatal CommandBuffer :=
  let update : Bool := if src ≠ VK_NULL_HANDLE then true else false
  pure (cb.record
    (vkCmdBuildAccelerationStructureNV cb.handle info VK_NULL_HANDLE 0 update dst src
      scratch 0))

/-- The member `blitImage`. -/
def blitImage (getImageLayoutFromState : ImageState → Nat) (cb : CommandBuffer)
    (srcImage : Nat) (srcState : ImageState) (dstImage : Nat) (dstState : ImageState)
    (region filter : Nat) : Except Fatal CommandBuffer :=
  pure (cb.record
    (vkCmdBlitImage cb.handle srcImage (getImageLayoutFromState srcState) dstImage
      (getImageLayoutFromState dstState) [region] filter))

/-- The member `copyBuffer`. -/
def copyBuffer (cb : CommandBuffer) (src srcOffset dest dstOffset size : Nat) :
    Except Fatal CommandBuffer :=
  let bufferCopy : VkBufferCopy :=
    { srcOffset := srcOffset, dstOffset := dstOffset, size := size }
  pure (cb.record (vkCmdCopyBuffer cb.handle src dest [bufferCopy]))

/-- The member `copyImageToBuffer`. -/
def copyImageToBuffer (getImageLayoutFromState : ImageState → Nat) (cb : CommandBuffer)
    (srcImage : Nat) (srcState : ImageState) (dstBuffer region : Nat) :
    Except Fatal CommandBuffer :=
  pure (cb.record
    (vkCmdCopyImageToBuffer cb.handle srcImage (getImageLayoutFromState srcState) dstBuffer
      [region]))

/-- The member `dispatch` (the defaults `groupCountY = 1`, `groupCountZ = 1` are
supplied by the call site). -/
def dispatch (cb : CommandBuffer) (groupCountX groupCountY groupCountZ : Nat) :
    Except Fatal CommandBuffer :=
  pure (cb.record (vkCmdDispatch cb.handle groupCountX groupCountY groupCountZ))

/-- The member `draw` (the defaults `firstVertex = 0`, `firstInstance = 0` are
supplied by the call site). -/
def draw (cb : CommandBuffer) (vertexCount instanceCount firstVertex firstInstance : Nat) :
    Except Fatal CommandBuffer :=
  pure (cb.record (vkCmdDraw cb.handle vertexCount instanceCount firstVertex firstInstance))

/-- The member `executeCommands`. -/
def executeCommands (cb : CommandBuffer) (commandBuffers : List Nat) :
    Except Fatal CommandBuffer :=
  pure (cb.record
    (vkCmdExecuteCommands cb.handle (wrap32 commandBuffers.length) commandBuffers))

/-- The member `pushConstants`: the assertion on the index, the lookup of the
range, the call. -/
def pushConstants (cb : CommandBuffer) (pipeline : Pipeline) (pushConstantRangeIndex : Int)
    (values : Nat) : Except Fatal CommandBuffer := do
  Q_ASSERT (pushConstantRangeIndex ≥ 0 ∧
    pushConstantRangeIndex < (pipeline.pushConstantRanges.length : Int))
  let range ← QVector_at pipeline.pushConstantRanges pushConstantRangeIndex
  pure (cb.record
    (vkCmdPushConstants cb.handle pipeline.pipelineLayout range.stageFlags range.offset
      range.size values))

/-- The member `resetQueryPool`. -/
def resetQueryPool (cb : CommandBuffer) (queryPool firstQuery queryCount : Nat) :
    Except Fatal CommandBuffer :=
  pure (cb.record (vkCmdResetQueryPool cb.handle queryPool firstQuery queryCount))

/-- The five-argument member `traceRays`.  The sum `1 + missShaderBindingIndex`
has type `uint32_t`; the products and the outer sum have type `VkDeviceSize`. -/
def traceRays (cb : CommandBuffer) (rayTracingPipeline : RayTracingPipeline)
    (width height missShaderBindingIndex hitShaderBindingIndex : Nat) :
    Except Fatal CommandBuffer := do
  Q_ASSERT (rayTracingPipeline.bindPoint = VkPipelineBindPoint.RAY_TRACING_NV)
  let shaderBindingTableBuffer := rayTracingPipeline.shaderBindingTable
  let shaderBindingTableStride := rayTracingPipeline.shaderBindingTableStride
  let missShaderBindingOffset :=
    wrap64 (wrap32 (1 + missShaderBindingIndex) * shaderBindingTableStride)
  let hitShaderBindingOffset :=
    wrap64 (rayTracingPipeline.shaderBindingTableHitGroupOffset +
      wrap64 (hitShaderBindingIndex * shaderBindingTableStride))
  pure (cb.record
    (vkCmdTraceRaysNV cb.handle
      shaderBindingTableBuffer 0
      shaderBindingTableBuffer missShaderBindingOffset shaderBindingTableStride
      shaderBindingTableBuffer hitShaderBindingOffset shaderBindingTableStride
      VK_NULL_HANDLE 0 0
      width height 1))

/-- The three-argument member `traceRays`. -/
def traceRays3 (cb : CommandBuffer) (rayTracingPipeline : RayTracingPipeline)
    (width height : Nat) : Except Fatal CommandBuffer :=
  traceRays cb rayTracingPipeline width height 0 0

/-- The member `setViewport`. -/
def setViewport (cb : CommandBuffer) (rect : QRect) (minDepth maxDepth : FloatValue) :
    Except Fatal CommandBuffer :=
  let vkViewport : VkViewport :=
    { x := FloatValue.ofInt32 rect.x
      y := FloatValue.ofInt32 rect.y
      width := FloatValue.ofUInt32 (toUInt32 rect.width)
      height := FloatValue.ofUInt32 (toUInt32 rect.height)
      minDepth := minDepth
      maxDepth := maxDepth }
  pure (cb.record (vkCmdSetViewport cb.handle 0 [vkViewport]))

/-- The member `setScissor`. -/
def setScissor (cb : CommandBuffer) (rect : QRect) : Except Fatal CommandBuffer :=
  let vkRect : VkRect2D :=
    { offsetX := rect.x
      offsetY := rect.y
      extentWidth := toUInt32 rect.width
      extentHeight := toUInt32 rect.height }
  pure (cb.record (vkCmdSetScissor cb.handle 0 [vkRect]))

/-- The member `setEvent`. -/
def setEvent (cb : CommandBuffer) (event stageMask : Nat) : Except Fatal CommandBuffer :=
  pure (cb.record (vkCmdSetEvent cb.handle event stageMask))

/-- The member `writeTimestamp`. -/
def writeTimestamp (cb : CommandBuffer) (pipelineStage queryPool query : Nat) :
    Except Fatal CommandBuffer :=
  pure (cb.record (vkCmdWriteTimestamp cb.handle pipelineStage queryPool query))

end Members

/-! ## The inline recording operations as data -/

/-- One call of an inline recording member of `CommandBuffer`, with its
arguments: the members of lines 43 to 167 of the header. -/
inductive RecordingOp
  | pipelineBarrier (srcStageMask srcAccessMask dstStageMask dstAccessMask : Nat)
  | beginRenderPass (beginInfo contents : Nat)
  | endRenderPass
  | clearColorImage (image : Nat) (imageState : ImageState) (range : Nat)
  | bindPipeline (pipeline : Pipeline)
  | bindDescriptorSets (pipeline : Pipeline) (firstSet : Nat) (descriptorSets : List Nat)
  | buildTopLevelAccelerationStructure (info dst src instanceData scratch : Nat)
  | buildBottomLevelAccelerationStructure (info dst src scratch : Nat)
  | blitImage (srcImage : Nat) (srcState : ImageState) (dstImage : Nat) (dstState : ImageState)
      (region filter : Nat)
  | copyBuffer (src srcOffset dest dstOffset size : Nat)
  | copyImageToBuffer (srcImage : Nat) (srcState : ImageState) (dstBuffer region : Nat)
  | dispatch (groupCountX groupCountY groupCountZ : Nat)
  | draw (vertexCount instanceCount firstVertex firstInstance : Nat)
  | executeCommands (commandBuffers : List Nat)
  | pushConstants (pipeline : Pipeline) (pushConstantRangeIndex : Int) (values : Nat)
  | resetQueryPool (queryPool firstQuery queryCount : Nat)
  | traceRays3 (rayTracingPipeline : RayTracingPipeline) (width height : Nat)
  | traceRays (rayTracingPipeline : RayTracingPipeline)
      (width height missShaderBindingIndex hitShaderBindingIndex : Nat)
  | setViewport (rect : QRect) (minDepth maxDepth : FloatValue)
  | setScissor (rect : QRect)
  | setEvent (event stageMask : Nat)
  | writeTimestamp (pipelineStage queryPool query : Nat)
  deriving DecidableEq, Repr

/-- Performs the call on a command buffer, with the member function of the same
name. -/
def RecordingOp.run (getImageLayoutFromState : ImageState → Nat) (cb : CommandBuffer) :
    RecordingOp → Except Fatal CommandBuffer
  | .pipelineBarrier a b c d => Vulkan.pipelineBarrier cb a b c d
  | .beginRenderPass i c => Vulkan.beginRenderPass cb i c
  | .endRenderPass => Vulkan.endRenderPass cb
  | .clearColorImage i s r => Vulkan.clearColorImage getImageLayoutFromState cb i s r
  | .bindPipeline p => Vulkan.bindPipeline cb p
  | .bindDescriptorSets p f d => Vulkan.bindDescriptorSets cb p f d
  | .buildTopLevelAccelerationStructure i d s n t =>
      Vulkan.buildTopLevelAccelerationStructure cb i d s n t
  | .buildBottomLevelAccelerationStructure i d s t =>
      Vulkan.buildBottomLevelAccelerationStructure cb i d s t
  | .blitImage a b c d r f => Vulkan.blitImage getImageLayoutFromState cb a b c d r f
  | .copyBuffer a b c d e => Vulkan.copyBuffer cb a b c d e
  | .copyImageToBuffer a b c d => Vulkan.copyImageToBuffer getImageLayoutFromState cb a b c d
  | .dispatch x y z => Vulkan.dispatch cb x y z
  | .draw a b c d => Vulkan.draw cb a b c d
  | .executeCommands l => Vulkan.executeCommands cb l
  | .pushConstants p i v => Vulkan.pushConstants cb p i v
  | .resetQueryPool a b c => Vulkan.resetQueryPool cb a b c
  | .traceRays3 p w h => Vulkan.traceRays3 cb p w h
  | .traceRays p w h m t => Vulkan.traceRays cb p w h m t
  | .setViewport r a b => Vulkan.setViewport cb r a b
  | .setScissor r => Vulkan.setScissor cb r
  | .setEvent e s => Vulkan.setEvent cb e s
  | .writeTimestamp a b c => Vulkan.writeTimestamp cb a b c

/-- The condition a call asserts: the index check of `pushConstants`, the bind
point check of `traceRays`; the other members assert nothing. -/
def RecordingOp.assertionHolds : RecordingOp → Prop
  | .pushConstants p i _ => 0 ≤ i ∧ i < (p.pushConstantRanges.length : Int)
  | .traceRays3 p _ _ => p.bindPoint = VkPipelineBindPoint.RAY_TRACING_NV
  | .traceRays p _ _ _ _ => p.bindPoint = VkPipelineBindPoint.RAY_TRACING_NV
  | _ => True

/-- The command `traceRays` issues when its assertion holds. -/
def traceRaysCommand (cb : CommandBuffer) (p : RayTracingPipeline)
    (width height missShaderBindingIndex hitShaderBindingIndex : Nat) : Command :=
  Command.vkCmdTraceRaysNV cb.handle
    p.shaderBindingTable 0
    p.shaderBindingTable
    (wrap64 (wrap32 (1 + missShaderBindingIndex) * p.shaderBindingTableStride))
    p.shaderBindingTableStride
    p.shaderBindingTable
    (wrap64 (p.shaderBindingTableHitGroupOffset +
      wrap64 (hitShaderBindingIndex * p.shaderBindingTableStride)))
    p.shaderBindingTableStride
    VK_NULL_HANDLE 0 0
    width height 1

/-- A ray-tracing pipeline with stride 64 and hit groups at offset 4096. -/
def sampleRayTracingPipeline : RayTracingPipeline :=
  { handle := 11
    bindPoint := VkPipelineBindPoint.RAY_TRACING_NV
    pipelineLayout := 12
    pushConstantRanges :=
      [{ stageFlags := 256, offset := 0, size := 16 }, { stageFlags := 1024, offset := 16, size := 64 }]
    shaderBindingTable := 5
    shaderBindingTableStride := 64
    shaderBindingTableHitGroupOffset := 4096 }

/-- A command buffer on which nothing has been issued and `begin()` has not been
called. -/
def freshCommandBuffer : CommandBuffer :=
  { handle := 7, state := RecordingState.Initial, recorded := [] }

/-- A command buffer in the recording state with one command issued. -/
def recordingCommandBuffer : CommandBuffer :=
  { handle := 7, state := RecordingState.Recording,
    recorded := [Command.vkCmdBindPipeline 7 VkPipelineBindPoint.RAY_TRACING_NV 11] }

/-- A command buffer after `end()`: executable, with one command issued. -/
def endedCommandBuffer : CommandBuffer :=
  { handle := 7, state := RecordingState.Executable,
    recorded := [Command.vkCmdBindPipeline 7 VkPipelineBindPoint.RAY_TRACING_NV 11] }

/-! ## Auxiliary facts -/

theorem Q_ASSERT_of_holds (cond : Prop) [Decidable cond] (h : cond) :
    Q_ASSERT cond = Except.ok () := by
  simp [Q_ASSERT, h]

theorem Q_ASSERT_of_fails (cond : Prop) [Decidable cond] (h : ¬ cond) :
    Q_ASSERT cond = Except.error Fatal.assertion := by
  simp [Q_ASSERT, h]

theorem QVector_at_of_inside {α : Type} (v : List α) (i : Int)
    (h : 0 ≤ i ∧ i < (v.length : Int)) :
    ∃ hlt : i.toNat < v.length, QVector_at v i = Except.ok (v.get ⟨i.toNat, hlt⟩) := by
  have hlt : i.toNat < v.length := by omega
  refine ⟨hlt, ?_⟩
  simp [QVector_at, h.1, List.getElem?_eq_getElem hlt]

theorem pushConstants_of_inside (cb : CommandBuffer) (p : Pipeline) (i : Int) (values : Nat)
    (h : 0 ≤ i ∧ i < (p.pushConstantRanges.length : Int)) :
    ∃ hlt : i.toNat < p.pushConstantRanges.length,
      pushConstants cb p i values = Except.ok (cb.record
        (Command.vkCmdPushConstants cb.handle p.pipelineLayout
          (p.pushConstantRanges.get ⟨i.toNat, hlt⟩).stageFlags
          (p.pushConstantRanges.get ⟨i.toNat, hlt⟩).offset
          (p.pushConstantRanges.get ⟨i.toNat, hlt⟩).size values)) := by
  obtain ⟨hlt, hat⟩ := QVector_at_of_inside p.pushConstantRanges i h
  refine ⟨hlt, ?_⟩
  have hq : Q_ASSERT (i ≥ 0 ∧ i < (p.pushConstantRanges.length : Int)) = Except.ok () :=
    Q_ASSERT_of_holds _ h
  simp only [pushConstants, hq, hat, bind, Except.bind, pure, Except.pure]

theorem pushConstants_of_outside (cb : CommandBuffer) (p : Pipeline) (i : Int) (values : Nat)
    (h : ¬ (0 ≤ i ∧ i < (p.pushConstantRanges.length : Int))) :
    pushConstants cb p i values = Except.error Fatal.assertion := by
  have hq : Q_ASSERT (i ≥ 0 ∧ i < (p.pushConstantRanges.length : Int)) =
      Except.error Fatal.assertion := Q_ASSERT_of_fails _ h
  simp only [pushConstants, hq, bind, Except.bind]

theorem traceRays_of_rayTracing (cb : CommandBuffer) (p : RayTracingPipeline)
    (w h m t : Nat) (hb : p.bindPoint = VkPipelineBindPoint.RAY_TRACING_NV) :
    traceRays cb p w h m t = Except.ok (cb.record (traceRaysCommand cb p w h m t)) := by
  have hq : Q_ASSERT (p.bindPoint = VkPipelineBindPoint.RAY_TRACING_NV) = Except.ok () :=
    Q_ASSERT_of_holds _ hb
  simp only [traceRays, hq, traceRaysCommand, bind, Except.bind, pure, Except.pure]

theorem traceRays_of_other (cb : CommandBuffer) (p : RayTracingPipeline)
    (w h m t : Nat) (hb : p.bindPoint ≠ VkPipelineBindPoint.RAY_TRACING_NV) :
    traceRays cb p w h m t = Except.error Fatal.assertion := by
  have hq : Q_ASSERT (p.bindPoint = VkPipelineBindPoint.RAY_TRACING_NV) =
      Except.error Fatal.assertion := Q_ASSERT_of_fails _ hb
  simp only [traceRays, hq, bind, Except.bind]

theorem wrap64_add_wrap64 (a b : Nat) : wrap64 (a + wrap64 b) = (a + b) % 2 ^ 64 := by
  simp [wrap64, Nat.add_mod]

theorem wrap32_succ_of_lt (m : Nat) (h : m + 1 < 2 ^ 32) : wrap32 (1 + m) = 1 + m := by
  unfold wrap32
  exact Nat.mod_eq_of_lt (by omega)

/-- Below the largest index the offsets of `traceRays` are the exact products and
sums: with `missIndex + 1 < 2 ^ 32` and both results below `2 ^ 64` nothing
wraps. -/
theorem traceRays_offsets_exact_below_max (cb : CommandBuffer) (p : RayTracingPipeline)
    (w h m t : Nat) (hb : p.bindPoint = VkPipelineBindPoint.RAY_TRACING_NV)
    (hm : m + 1 < 2 ^ 32)
    (hmiss : (1 + m) * p.shaderBindingTableStride < 2 ^ 64)
    (hhit : p.shaderBindingTableHitGroupOffset + t * p.shaderBindingTableStride < 2 ^ 64) :
    traceRays cb p w h m t = Except.ok (cb.record
      (Command.vkCmdTraceRaysNV cb.handle p.shaderBindingTable 0
        p.shaderBindingTable ((1 + m) * p.shaderBindingTableStride) p.shaderBindingTableStride
        p.shaderBindingTable
        (p.shaderBindingTableHitGroupOffset + t * p.shaderBindingTableStride)
        p.shaderBindingTableStride
        VK_NULL_HANDLE 0 0 w h 1)) := by
  rw [traceRays_of_rayTracing cb p w h m t hb, traceRaysCommand, wrap64_add_wrap64,
    wrap32_succ_of_lt m hm, Nat.mod_eq_of_lt hhit]
  unfold wrap64
  rw [Nat.mod_eq_of_lt hmiss]

/-! ## The claims -/

/-- C1 (the code departs from the claim): at `missIndex = 2 ^ 32 - 1` with stride 64
the exact product `(1 + missIndex) * 64 = 274877906944` fits in 64 bits, yet
`traceRays` records the miss offset `0`, because the sum `1 + missIndex` wraps
in `uint32_t`; the hit offset `4096 + 3 * 64 = 4288` is exact. -/
theorem traceRays_miss_offset_wraps_at_max_index :
    traceRays recordingCommandBuffer sampleRayTracingPipeline 640 480 4294967295 3 =
      Except.ok
        { handle := 7, state := RecordingState.Recording,
          recorded :=
            [Command.vkCmdBindPipeline 7 VkPipelineBindPoint.RAY_TRACING_NV 11,
             Command.vkCmdTraceRaysNV 7 5 0 5 0 64 5 4288 64 0 0 0 640 480 1] } ∧
    (1 + 4294967295) * sampleRayTracingPipeline.shaderBindingTableStride = 274877906944 ∧
    (1 + 4294967295) * sampleRayTracingPipeline.shaderBindingTableStride < 2 ^ 64 ∧
    sampleRayTracingPipeline.shaderBindingTableHitGroupOffset +
      3 * sampleRayTracingPipeline.shaderBindingTableStride < 2 ^ 64 ∧
    sampleRayTracingPipeline.bindPoint = VkPipelineBindPoint.RAY_TRACING_NV := by
  refine ⟨?_, ?_, ?_, ?_, rfl⟩
  · rw [traceRays_of_rayTracing _ _ _ _ _ _ rfl]
    simp [traceRaysCommand, CommandBuffer.record, recordingCommandBuffer,
      sampleRayTracingPipeline, wrap32, wrap64, VK_NULL_HANDLE]
  · simp [sampleRayTracingPipeline]
  · simp [sampleRayTracingPipeline]
  · simp [sampleRayTracingPipeline]

/-- C2: both acceleration-structure builds record one build command that carries
`dst`, `src` and `scratch` unchanged and whose update flag is true exactly when
`src` is not the null handle. -/
theorem build_update_flag_iff_src_nonnull (cb : CommandBuffer)
    (info dst src instanceData scratch : Nat) :
    ∃ update : Bool,
      (update = true ↔ src ≠ VK_NULL_HANDLE) ∧
      buildBottomLevelAccelerationStructure cb info dst src scratch =
        Except.ok (cb.record
          (Command.vkCmdBuildAccelerationStructureNV cb.handle info VK_NULL_HANDLE 0 update
            dst src scratch 0)) ∧
      buildTopLevelAccelerationStructure cb info dst src instanceData scratch =
        Except.ok (cb.record
          (Command.vkCmdBuildAccelerationStructureNV cb.handle info instanceData 0 update
            dst src scratch 0)) := by
  refine ⟨if src ≠ VK_NULL_HANDLE then true else false, ?_, rfl, rfl⟩
  by_cases hs : src = VK_NULL_HANDLE <;> simp [hs]

/-- C3: `pushConstants` ends in the fatal assertion exactly when the index is
negative or not below the number of declared ranges (the error result carries
no command buffer, so nothing is recorded); with no declared range it does so
for every index. -/
theorem pushConstants_fatal_iff_index_outside (cb : CommandBuffer) (p : Pipeline) (i : Int)
    (values : Nat) :
    (pushConstants cb p i values = Except.error Fatal.assertion ↔
      (i < 0 ∨ (p.pushConstantRanges.length : Int) ≤ i)) ∧
    pushConstants cb { p with pushConstantRanges := [] } i values =
      Except.error Fatal.assertion := by
  constructor
  · by_cases h : 0 ≤ i ∧ i < (p.pushConstantRanges.length : Int)
    · obtain ⟨hlt, heq⟩ := pushConstants_of_inside cb p i values h
      rw [heq]
      constructor
      · intro hc
        cases hc
      · intro hc
        omega
    · rw [pushConstants_of_outside cb p i values h]
      constructor
      · intro _
        omega
      · intro _
        rfl
  · apply pushConstants_of_outside
    simp

/-- C4: both overloads of `traceRays` end in the fatal assertion exactly when the
bind point of the pipeline is not `RAY_TRACING_NV`; otherwise they append
exactly one `vkCmdTraceRaysNV` command. -/
theorem traceRays_fatal_iff_not_rayTracing (cb : CommandBuffer) (p : RayTracingPipeline)
    (w h m t : Nat) :
    (traceRays cb p w h m t = Except.error Fatal.assertion ↔
      p.bindPoint ≠ VkPipelineBindPoint.RAY_TRACING_NV) ∧
    (traceRays3 cb p w h = Except.error Fatal.assertion ↔
      p.bindPoint ≠ VkPipelineBindPoint.RAY_TRACING_NV) ∧
    traceRays cb p w h m t =
      (if p.bindPoint = VkPipelineBindPoint.RAY_TRACING_NV then
        Except.ok { cb with recorded := cb.recorded ++ [traceRaysCommand cb p w h m t] }
      else Except.error Fatal.assertion) ∧
    traceRays3 cb p w h =
      (if p.bindPoint = VkPipelineBindPoint.RAY_TRACING_NV then
        Except.ok { cb with recorded := cb.recorded ++ [traceRaysCommand cb p w h 0 0] }
      else Except.error Fatal.assertion) := by
  by_cases hb : p.bindPoint = VkPipelineBindPoint.RAY_TRACING_NV
  · simp [traceRays3, traceRays_of_rayTracing _ _ _ _ _ _ hb, hb, CommandBuffer.record]
  · simp [traceRays3, traceRays_of_other _ _ _ _ _ _ hb, hb]

/-- C5 (the claim fails on the code): `dispatch` on a command buffer on which
`begin()` was never called, and `draw` on one after `end()`, do not fail; each
issues its command. -/
theorem dispatch_outside_recording_state_records :
    freshCommandBuffer.state = RecordingState.Initial ∧
    dispatch freshCommandBuffer 8 1 1 =
      Except.ok
        { handle := 7, state := RecordingState.Initial,
          recorded := [Command.vkCmdDispatch 7 8 1 1] } ∧
    endedCommandBuffer.state = RecordingState.Executable ∧
    draw endedCommandBuffer 3 1 0 0 =
      Except.ok
        { handle := 7, state := RecordingState.Executable,
          recorded :=
            [Command.vkCmdBindPipeline 7 VkPipelineBindPoint.RAY_TRACING_NV 11,
             Command.vkCmdDraw 7 3 1 0 0] } := by
  refine ⟨rfl, rfl, rfl, rfl⟩

/-- C5 (amended): the inline members that issue a `vkCmd*` call themselves (lines
43 to 167 of the header) do not look at the recording state.  In every state
`s`, also before `begin()` and after `end()`, such a member does what it does
in the `Recording` state, the state being left as it was; in particular
`dispatch`, `draw`, `copyBuffer`, `pipelineBarrier` and `bindPipeline` issue
their command in every state and do not fail.  The `resourceBarrier`
overloads, whose effect is that of the out-of-line primitive, are not covered
by this statement. -/
theorem recording_ops_ignore_recording_state (getImageLayoutFromState : ImageState → Nat)
    (handle : Nat) (s : RecordingState) (cmds : List Command) (op : RecordingOp)
    (a b c d e : Nat) (p : Pipeline) :
    op.run getImageLayoutFromState { handle := handle, state := s, recorded := cmds } =
      Except.map (fun r : CommandBuffer => { r with state := s })
        (op.run getImageLayoutFromState
          { handle := handle, state := RecordingState.Recording, recorded := cmds }) ∧
    dispatch { handle := handle, state := s, recorded := cmds } a b c =
      Except.ok { handle := handle, state := s,
                  recorded := cmds ++ [Command.vkCmdDispatch handle a b c] } ∧
    draw { handle := handle, state := s, recorded := cmds } a b c d =
      Except.ok { handle := handle, state := s,
                  recorded := cmds ++ [Command.vkCmdDraw handle a b c d] } ∧
    copyBuffer { handle := handle, state := s, recorded := cmds } a b c d e =
      Except.ok { handle := handle, state := s,
                  recorded := cmds ++ [Command.vkCmdCopyBuffer handle a c
                    [{ srcOffset := b, dstOffset := d, size := e }]] } ∧
    pipelineBarrier { handle := handle, state := s, recorded := cmds } a b c d =
      Except.ok { handle := handle, state := s,
                  recorded := cmds ++ [Command.vkCmdPipelineBarrier handle a c 0
                    [{ srcAccessMask := b, dstAccessMask := d }] [] []] } ∧
    bindPipeline { handle := handle, state := s, recorded := cmds } p =
      Except.ok { handle := handle, state := s,
                  recorded := cmds ++ [Command.vkCmdBindPipeline handle p.bindPoint
                    p.handle] } := by
  refine ⟨?_, rfl, rfl, rfl, rfl, rfl⟩
  cases op with
  | pushConstants q i v =>
    by_cases h : 0 ≤ i ∧ i < (q.pushConstantRanges.length : Int)
    · obtain ⟨_, heq⟩ := pushConstants_of_inside
        { handle := handle, state := s, recorded := cmds } q i v h
      obtain ⟨_, heqR⟩ := pushConstants_of_inside
        { handle := handle, state := RecordingState.Recording, recorded := cmds } q i v h
      simp only [RecordingOp.run, heq, heqR]
      rfl
    · simp only [RecordingOp.run, pushConstants_of_outside _ q i v h]
      rfl
  | traceRays3 q w h =>
    by_cases hb : q.bindPoint = VkPipelineBindPoint.RAY_TRACING_NV
    · simp only [RecordingOp.run, traceRays3, traceRays_of_rayTracing _ _ _ _ _ _ hb]
      rfl
    · simp only [RecordingOp.run, traceRays3, traceRays_of_other _ _ _ _ _ _ hb]
      rfl
  | traceRays q w h m t =>
    by_cases hb : q.bindPoint = VkPipelineBindPoint.RAY_TRACING_NV
    · simp only [RecordingOp.run, traceRays_of_rayTracing _ _ _ _ _ _ hb]
      rfl
    · simp only [RecordingOp.run, traceRays_of_other _ _ _ _ _ _ hb]
      rfl
  | _ => rfl

/-- C6: every inline recording operation whose assertion holds returns the command
buffer with exactly one command appended at the end of the sequence; handle,
state, the commands recorded before and their order are unchanged. -/
theorem recording_op_appends_exactly_one (getImageLayoutFromState : ImageState → Nat)
    (cb : CommandBuffer) (op : RecordingOp) (hop : op.assertionHolds) :
    ∃ c : Command,
      op.run getImageLayoutFromState cb =
        Except.ok { handle := cb.handle, state := cb.state, recorded := cb.recorded ++ [c] } := by
  cases op with
  | pushConstants q i v =>
    obtain ⟨hlt, heq⟩ := pushConstants_of_inside cb q i v hop
    exact ⟨_, heq⟩
  | traceRays3 q w h =>
    exact ⟨_, traceRays_of_rayTracing cb q w h 0 0 hop⟩
  | traceRays q w h m t =>
    exact ⟨_, traceRays_of_rayTracing cb q w h m t hop⟩
  | _ => exact ⟨_, rfl⟩

/-- C6 (witness): a `pushConstants` call with index 1 on a pipeline with two ranges. -/
theorem recording_op_appends_exactly_one_witness :
    (RecordingOp.pushConstants sampleRayTracingPipeline.toPipeline 1 99).assertionHolds ∧
    ∃ c : Command,
      (RecordingOp.pushConstants sampleRayTracingPipeline.toPipeline 1 99).run (fun st => st)
          recordingCommandBuffer =
        Except.ok { handle := recordingCommandBuffer.handle,
                    state := recordingCommandBuffer.state,
                    recorded := recordingCommandBuffer.recorded ++ [c] } :=
  ⟨by simp [RecordingOp.assertionHolds, sampleRayTracingPipeline],
   recording_op_appends_exactly_one (fun st => st) recordingCommandBuffer
     (RecordingOp.pushConstants sampleRayTracingPipeline.toPipeline 1 99)
     (by simp [RecordingOp.assertionHolds, sampleRayTracingPipeline])⟩

/-- C7: for an index inside the declared ranges `pushConstants` records one
`vkCmdPushConstants` whose stage mask, offset and size are those of the range
at that index, whose layout is the layout of the pipeline and whose data
pointer is the given one. -/
theorem pushConstants_records_range_fields (cb : CommandBuffer) (p : Pipeline) (i : Int)
    (values : Nat) (h : 0 ≤ i ∧ i < (p.pushConstantRanges.length : Int)) :
    ∃ range : VkPushConstantRange,
      p.pushConstantRanges.get? i.toNat = some range ∧
      pushConstants cb p i values =
        Except.ok { cb with
          recorded := cb.recorded ++
            [Command.vkCmdPushConstants cb.handle p.pipelineLayout range.stageFlags
              range.offset range.size values] } := by
  obtain ⟨hlt, heq⟩ := pushConstants_of_inside cb p i values h
  refine ⟨p.pushConstantRanges.get ⟨i.toNat, hlt⟩, ?_, heq⟩
  simp [List.getElem?_eq_getElem hlt]

/-- C7 (witness): index 1 of a pipeline whose second range is
(stage 1024, offset 16, size 64). -/
theorem pushConstants_records_range_fields_witness :
    (0 ≤ (1 : Int) ∧
      (1 : Int) < (sampleRayTracingPipeline.toPipeline.pushConstantRanges.length : Int)) ∧
    ∃ range : VkPushConstantRange,
      sampleRayTracingPipeline.toPipeline.pushConstantRanges.get? (1 : Int).toNat =
        some range ∧
      pushConstants recordingCommandBuffer sampleRayTracingPipeline.toPipeline 1 99 =
        Except.ok { recordingCommandBuffer with
          recorded := recordingCommandBuffer.recorded ++
            [Command.vkCmdPushConstants recordingCommandBuffer.handle
              sampleRayTracingPipeline.toPipeline.pipelineLayout range.stageFlags
              range.offset range.size 99] } :=
  ⟨by simp [sampleRayTracingPipeline],
   pushConstants_records_range_fields recordingCommandBuffer
     sampleRayTracingPipeline.toPipeline 1 99 (by simp [sampleRayTracingPipeline])⟩

/-- C8: whatever the counted-array primitive does, the single buffer transition
overload is one call of it with counts 1 and 0 and the single image transition
overload is one call of it with counts 0 and 1; nothing else happens to the
command buffer. -/
theorem resourceBarrier_single_funnels_into_primitive
    (resourceBarrier : ResourceBarrierPrimitive) (cb : CommandBuffer)
    (b : BufferTransition) (i : ImageTransition) :
    resourceBarrier_buffer resourceBarrier cb b = resourceBarrier cb 1 (some [b]) 0 none ∧
    resourceBarrier_image resourceBarrier cb i = resourceBarrier cb 0 none 1 (some [i]) :=
  ⟨rfl, rfl⟩

/-- C9: on a ray-tracing pipeline whose stride and hit-group offset are 64-bit
values, `traceRays` records the grid `(width, height, 1)` and the null callable
table `(VK_NULL_HANDLE, 0, 0)` for every pair of indices, and the
three-argument overload records what `traceRays` with indices 0 and 0 records:
miss offset equal to the stride, hit offset equal to the hit-group offset. -/
theorem traceRays_grid_and_default_indices (cb : CommandBuffer) (p : RayTracingPipeline)
    (w h m t : Nat) (hb : p.bindPoint = VkPipelineBindPoint.RAY_TRACING_NV)
    (hS : p.shaderBindingTableStride < 2 ^ 64)
    (hH : p.shaderBindingTableHitGroupOffset < 2 ^ 64) :
    (∃ missOffset hitOffset : Nat,
      traceRays cb p w h m t =
        Except.ok { cb with
          recorded := cb.recorded ++
            [Command.vkCmdTraceRaysNV cb.handle p.shaderBindingTable 0
              p.shaderBindingTable missOffset p.shaderBindingTableStride
              p.shaderBindingTable hitOffset p.shaderBindingTableStride
              VK_NULL_HANDLE 0 0 w h 1] }) ∧
    traceRays3 cb p w h = traceRays cb p w h 0 0 ∧
    traceRays3 cb p w h =
      Except.ok { cb with
        recorded := cb.recorded ++
          [Command.vkCmdTraceRaysNV cb.handle p.shaderBindingTable 0
            p.shaderBindingTable p.shaderBindingTableStride p.shaderBindingTableStride
            p.shaderBindingTable p.shaderBindingTableHitGroupOffset
            p.shaderBindingTableStride
            VK_NULL_HANDLE 0 0 w h 1] } := by
  refine ⟨⟨_, _, traceRays_of_rayTracing cb p w h m t hb⟩, rfl, ?_⟩
  have h0 := traceRays_offsets_exact_below_max cb p w h 0 0 hb (by norm_num)
    (by simpa using hS) (by simpa using hH)
  simpa [traceRays3, CommandBuffer.record] using h0

/-- C9 (witness): the sample pipeline with stride 64 and hit-group offset 4096,
indices 2 and 3 for the five-argument call. -/
theorem traceRays_grid_and_default_indices_witness :
    (sampleRayTracingPipeline.bindPoint = VkPipelineBindPoint.RAY_TRACING_NV ∧
      sampleRayTracingPipeline.shaderBindingTableStride < 2 ^ 64 ∧
      sampleRayTracingPipeline.shaderBindingTableHitGroupOffset < 2 ^ 64) ∧
    ((∃ missOffset hitOffset : Nat,
      traceRays recordingCommandBuffer sampleRayTracingPipeline 640 480 2 3 =
        Except.ok { recordingCommandBuffer with
          recorded := recordingCommandBuffer.recorded ++
            [Command.vkCmdTraceRaysNV recordingCommandBuffer.handle
              sampleRayTracingPipeline.shaderBindingTable 0
              sampleRayTracingPipeline.shaderBindingTable missOffset
              sampleRayTracingPipeline.shaderBindingTableStride
              sampleRayTracingPipeline.shaderBindingTable hitOffset
              sampleRayTracingPipeline.shaderBindingTableStride
              VK_NULL_HANDLE 0 0 640 480 1] }) ∧
    traceRays3 recordingCommandBuffer sampleRayTracingPipeline 640 480 =
      traceRays recordingCommandBuffer sampleRayTracingPipeline 640 480 0 0 ∧
    traceRays3 recordingCommandBuffer sampleRayTracingPipeline 640 480 =
      Except.ok { recordingCommandBuffer with
        recorded := recordingCommandBuffer.recorded ++
          [Command.vkCmdTraceRaysNV recordingCommandBuffer.handle
            sampleRayTracingPipeline.shaderBindingTable 0
            sampleRayTracingPipeline.shaderBindingTable
            sampleRayTracingPipeline.shaderBindingTableStride
            sampleRayTracingPipeline.shaderBindingTableStride
            sampleRayTracingPipeline.shaderBindingTable
            sampleRayTracingPipeline.shaderBindingTableHitGroupOffset
            sampleRayTracingPipeline.shaderBindingTableStride
            VK_NULL_HANDLE 0 0 640 480 1] }) :=
  ⟨⟨rfl, by simp [sampleRayTracingPipeline], by simp [sampleRayTracingPipeline]⟩,
   traceRays_grid_and_default_indices recordingCommandBuffer sampleRayTracingPipeline
    640 480 2 3 rfl (by simp [sampleRayTracingPipeline])
    (by simp [sampleRayTracingPipeline])⟩

/-- C10: on a ray-tracing pipeline the recorded miss offset is
`(((1 + missIndex) mod 2^32) * S) mod 2^64` and the recorded hit offset is
`(H + hitIndex * S) mod 2^64`; hence at `missIndex = 2^32 - 1` the miss offset
is 0, the offset of the ray-generation record, whatever the stride. -/
theorem traceRays_offsets_modular (cb : CommandBuffer) (p : RayTracingPipeline)
    (w h m t : Nat) (hb : p.bindPoint = VkPipelineBindPoint.RAY_TRACING_NV) :
    traceRays cb p w h m t =
      Except.ok { cb with
        recorded := cb.recorded ++
          [Command.vkCmdTraceRaysNV cb.handle p.shaderBindingTable 0
            p.shaderBindingTable
            ((((1 + m) % 2 ^ 32) * p.shaderBindingTableStride) % 2 ^ 64)
            p.shaderBindingTableStride
            p.shaderBindingTable
            ((p.shaderBindingTableHitGroupOffset + t * p.shaderBindingTableStride) % 2 ^ 64)
            p.shaderBindingTableStride
            VK_NULL_HANDLE 0 0 w h 1] } ∧
    traceRays cb p w h (2 ^ 32 - 1) t =
      Except.ok { cb with
        recorded := cb.recorded ++
          [Command.vkCmdTraceRaysNV cb.handle p.shaderBindingTable 0
            p.shaderBindingTable 0 p.shaderBindingTableStride
            p.shaderBindingTable
            ((p.shaderBindingTableHitGroupOffset + t * p.shaderBindingTableStride) % 2 ^ 64)
            p.shaderBindingTableStride
            VK_NULL_HANDLE 0 0 w h 1] } := by
  constructor
  · rw [traceRays_of_rayTracing cb p w h m t hb, traceRaysCommand, wrap64_add_wrap64]
    rfl
  · rw [traceRays_of_rayTracing cb p w h (2 ^ 32 - 1) t hb, traceRaysCommand,
      wrap64_add_wrap64]
    have hz : wrap32 (1 + (2 ^ 32 - 1)) = 0 := by norm_num [wrap32]
    rw [hz]
    simp [wrap64, CommandBuffer.record]

/-- C10 (witness): the sample pipeline with `missIndex = 5`, `hitIndex = 3`. -/
theorem traceRays_offsets_modular_witness :
    sampleRayTracingPipeline.bindPoint = VkPipelineBindPoint.RAY_TRACING_NV ∧
    (traceRays recordingCommandBuffer sampleRayTracingPipeline 640 480 5 3 =
      Except.ok { recordingCommandBuffer with
        recorded := recordingCommandBuffer.recorded ++
          [Command.vkCmdTraceRaysNV recordingCommandBuffer.handle
            sampleRayTracingPipeline.shaderBindingTable 0
            sampleRayTracingPipeline.shaderBindingTable
            ((((1 + 5) % 2 ^ 32) * sampleRayTracingPipeline.shaderBindingTableStride) % 2 ^ 64)
            sampleRayTracingPipeline.shaderBindingTableStride
            sampleRayTracingPipeline.shaderBindingTable
            ((sampleRayTracingPipeline.shaderBindingTableHitGroupOffset +
              3 * sampleRayTracingPipeline.shaderBindingTableStride) % 2 ^ 64)
            sampleRayTracingPipeline.shaderBindingTableStride
            VK_NULL_HANDLE 0 0 640 480 1] } ∧
    traceRays recordingCommandBuffer sampleRayTracingPipeline 640 480 (2 ^ 32 - 1) 3 =
      Except.ok { recordingCommandBuffer with
        recorded := recordingCommandBuffer.recorded ++
          [Command.vkCmdTraceRaysNV recordingCommandBuffer.handle
            sampleRayTracingPipeline.shaderBindingTable 0
            sampleRayTracingPipeline.shaderBindingTable 0
            sampleRayTracingPipeline.shaderBindingTableStride
            sampleRayTracingPipeline.shaderBindingTable
            ((sampleRayTracingPipeline.shaderBindingTableHitGroupOffset +
              3 * sampleRayTracingPipeline.shaderBindingTableStride) % 2 ^ 64)
            sampleRayTracingPipeline.shaderBindingTableStride
            VK_NULL_HANDLE 0 0 640 480 1] }) :=
  ⟨rfl, traceRays_offsets_modular recordingCommandBuffer sampleRayTracingPipeline
    640 480 5 3 rfl⟩

end Vulkan
end Qt3DRaytrace
